import Mathlib

/-!
# Verification of the nsqlitego client library

Shallow embedding of the nsqlitego Go client (connection-string parsing,
wire-protocol client, connection/transaction state machine, statement/result
adapter) together with proofs settling the frozen specification claims.

Go strings are modelled as `List Char` (the sources only manipulate ASCII
text in the places the claims touch; multi-byte UTF-8 handling of the Go
standard library is modelled per code point and documented at each
definition).  Stateful Go methods become pure functions threading the state
explicitly; the outcome of an HTTP round trip is an explicit argument, and
requests that a function sends on the wire are reified in its result so that
"no wire request is issued" is expressible.
-/

set_option autoImplicit false

/-- Go strings, modelled as lists of characters. -/
abbrev Str := List Char

/-- Convert a Lean string literal to the `Str` model. -/
def s2l (s : String) : Str := s.data

/-- Model of Go `strings.ToLower` (ASCII case folding; the repository only
lowercases ASCII payloads such as `"OK"`). -/
def lowerStr (s : Str) : Str := s.map Char.toLower

/-- Model of Go `strings.ToUpper` (ASCII case folding; used for declared
column type names). -/
def upperStr (s : Str) : Str := s.map Char.toUpper

/-- Model of Go `strings.Split(s, sep)` for a one-character separator:
splits around every occurrence of `c`; adjacent separators yield empty
fields, and the empty string yields `[[]]`. -/
def splitOnChar (c : Char) : Str → List Str
  | [] => [[]]
  | x :: xs =>
    if x = c then [] :: splitOnChar c xs
    else
      match splitOnChar c xs with
      | [] => [[x]]
      | h :: t => (x :: h) :: t

/-- Model of Go `strings.Cut(s, sep)` for a one-character separator: the part
before the first occurrence, the part after it, and whether it was found. -/
def cutChar (c : Char) : Str → Str × Str × Bool
  | [] => ([], [], false)
  | x :: xs =>
    if x = c then ([], xs, true)
    else
      let r := cutChar c xs
      (x :: r.1, r.2.1, r.2.2)

/-- Membership of a character in a string (Go `strings.Contains` for a
one-character needle). -/
def containsChar (c : Char) : Str → Bool
  | [] => false
  | x :: xs => x = c || containsChar c xs

/-- Go `strings.HasSuffix(s, c)` for a one-character suffix. -/
def endsWithChar (c : Char) : Str → Bool
  | [] => false
  | [x] => x = c
  | _ :: x :: xs => endsWithChar c (x :: xs)

/-- Join a list of strings with a one-character separator
(Go `strings.Join`). -/
def joinWithChar (c : Char) : List Str → Str
  | [] => []
  | [x] => x
  | x :: xs => x ++ c :: joinWithChar c xs

/-! ## nsqlitedsn.ConnStr (src/nsqlitedsn/connstr.go) -/

/-- `ConnStr` holds the NSQLite connection string divided into its parts
(src/nsqlitedsn/connstr.go). -/
structure ConnStr where
  Protocol : Str
  Host : Str
  Port : Str
  AuthToken : Str
  deriving DecidableEq, Repr

/-- `(*ConnStr).setDefaultsIfEmpty`: fills `Protocol`, `Host`, `Port` with
`"http"`, `"localhost"`, `"9876"` when they are empty.  The Go method mutates
the receiver; the model returns the updated record. -/
def setDefaultsIfEmpty (c : ConnStr) : ConnStr :=
  { Protocol := if c.Protocol = [] then s2l "http" else c.Protocol
    Host := if c.Host = [] then s2l "localhost" else c.Host
    Port := if c.Port = [] then s2l "9876" else c.Port
    AuthToken := c.AuthToken }

/-- `(*ConnStr).String`: redacted display form.  Returns the display string
together with the receiver after its `setDefaultsIfEmpty` mutation. -/
def connStrString (c : ConnStr) : Str × ConnStr :=
  let d := setDefaultsIfEmpty c
  if d.AuthToken = [] then
    (d.Protocol ++ s2l "://" ++ d.Host ++ s2l ":" ++ d.Port, d)
  else
    (d.Protocol ++ s2l "://" ++ d.Host ++ s2l ":" ++ d.Port ++ s2l "?authToken=****", d)

/-- `(*ConnStr).BaseUrlStr`: `protocol://host:port`, no token.  Returns the
string together with the receiver after defaulting. -/
def baseUrlStr (c : ConnStr) : Str × ConnStr :=
  let d := setDefaultsIfEmpty c
  (d.Protocol ++ s2l "://" ++ d.Host ++ s2l ":" ++ d.Port, d)

/-! ## Go standard library model: percent-escaping (net/url)

The repository builds URLs through Go's `net/url`; the pieces its behaviour
depends on are modelled here.  Strings are sequences of code points; escaping
of non-ASCII code points follows their UTF-8 bytes. -/

/-- Hexadecimal digit test (Go `ishex`). -/
def isHexDigitGo (c : Char) : Bool :=
  c.isDigit || ('a' ≤ c && c ≤ 'f') || ('A' ≤ c && c ≤ 'F')

/-- Hexadecimal digit value (Go `unhex`). -/
def unhexGo (c : Char) : Nat :=
  if c.isDigit then c.toNat - '0'.toNat
  else if 'a' ≤ c && c ≤ 'f' then c.toNat - 'a'.toNat + 10
  else if 'A' ≤ c && c ≤ 'F' then c.toNat - 'A'.toNat + 10
  else 0

/-- Upper-case hexadecimal digit for a value below 16 (Go `upperhex`). -/
def hexUpper (n : Nat) : Char :=
  if n < 10 then Char.ofNat ('0'.toNat + n) else Char.ofNat ('A'.toNat + n - 10)

/-- Percent-encoding of a single byte, `%XX` with upper-case hex. -/
def pctEncodeByte (b : Nat) : Str := ['%', hexUpper (b / 16), hexUpper (b % 16)]

/-- UTF-8 bytes of a code point (Go strings are byte sequences; escaping
operates on these bytes). -/
def utf8Bytes (n : Nat) : List Nat :=
  if n < 0x80 then [n]
  else if n < 0x800 then [0xC0 + n / 0x40, 0x80 + n % 0x40]
  else if n < 0x10000 then
    [0xE0 + n / 0x1000, 0x80 + (n / 0x40) % 0x40, 0x80 + n % 0x40]
  else
    [0xF0 + n / 0x40000, 0x80 + (n / 0x1000) % 0x40, 0x80 + (n / 0x40) % 0x40,
     0x80 + n % 0x40]

/-- Go `shouldEscape(c, encodePath)`: alphanumerics, `-_.~` and the reserved
characters `$&+,/:;=@` stay, `?` and everything else escapes. -/
def shouldEscapePath (c : Char) : Bool :=
  if c.isAlpha || c.isDigit then false
  else if containsChar c (s2l "-_.~") then false
  else if containsChar c (s2l "$&+,/:;=@") then false
  else true

/-- Go `shouldEscape(c, encodeHost)` (also used for `encodeZone`):
alphanumerics, the host-legal set and `-_.~` stay, everything else is an
invalid host character. -/
def shouldEscapeHost (c : Char) : Bool :=
  if c.isAlpha || c.isDigit then false
  else if containsChar c (s2l "!$&\x27()*+,;=:[]<>\"") then false
  else if containsChar c (s2l "-_.~") then false
  else true

/-- Go `escape(s, encodePath)` over code points (non-ASCII code points are
escaped byte-wise per UTF-8). -/
def escapePath (s : Str) : Str :=
  (s.map (fun c =>
    if c.toNat < 0x80 then
      if shouldEscapePath c then pctEncodeByte c.toNat else [c]
    else
      ((utf8Bytes c.toNat).map pctEncodeByte).flatten)).flatten

/-- Go `unescape(s, mode)` for the modes without extra character checks
(path, fragment, user/password): decodes `%XX`, failing with Go's
`EscapeError` message on a malformed escape.  A decoded byte is modelled as
the code point of that value. -/
def unescapePlain : Str → Except Str Str
  | [] => .ok []
  | '%' :: a :: b :: rest =>
    if isHexDigitGo a && isHexDigitGo b then
      match unescapePlain rest with
      | .error e => .error e
      | .ok t => .ok (Char.ofNat (16 * unhexGo a + unhexGo b) :: t)
    else .error (s2l "invalid URL escape \"" ++ ['%', a, b] ++ s2l "\"")
  | ['%', a] => .error (s2l "invalid URL escape \"" ++ ['%', a] ++ s2l "\"")
  | ['%'] => .error (s2l "invalid URL escape \"" ++ ['%'] ++ s2l "\"")
  | c :: rest =>
    match unescapePlain rest with
    | .error e => .error e
    | .ok t => .ok (c :: t)

/-- Go `unescape(s, encodeQueryComponent)`: like the plain mode but `+`
decodes to a space. -/
def unescapeQueryGo : Str → Except Str Str
  | [] => .ok []
  | '%' :: a :: b :: rest =>
    if isHexDigitGo a && isHexDigitGo b then
      match unescapeQueryGo rest with
      | .error e => .error e
      | .ok t => .ok (Char.ofNat (16 * unhexGo a + unhexGo b) :: t)
    else .error (s2l "invalid URL escape \"" ++ ['%', a, b] ++ s2l "\"")
  | ['%', a] => .error (s2l "invalid URL escape \"" ++ ['%', a] ++ s2l "\"")
  | ['%'] => .error (s2l "invalid URL escape \"" ++ ['%'] ++ s2l "\"")
  | '+' :: rest =>
    match unescapeQueryGo rest with
    | .error e => .error e
    | .ok t => .ok (' ' :: t)
  | c :: rest =>
    match unescapeQueryGo rest with
    | .error e => .error e
    | .ok t => .ok (c :: t)

/-- Go `unescape(s, encodeHost)`: `%XX` below `%80` is rejected except
`%25`, and an unescaped ASCII character that `shouldEscape`s in host mode is
an invalid host character. -/
def unescapeHostGo : Str → Except Str Str
  | [] => .ok []
  | '%' :: a :: b :: rest =>
    if isHexDigitGo a && isHexDigitGo b then
      if unhexGo a < 8 && !(a = '2' && b = '5') then
        .error (s2l "invalid URL escape \"" ++ ['%', a, b] ++ s2l "\"")
      else
        match unescapeHostGo rest with
        | .error e => .error e
        | .ok t => .ok (Char.ofNat (16 * unhexGo a + unhexGo b) :: t)
    else .error (s2l "invalid URL escape \"" ++ ['%', a, b] ++ s2l "\"")
  | ['%', a] => .error (s2l "invalid URL escape \"" ++ ['%', a] ++ s2l "\"")
  | ['%'] => .error (s2l "invalid URL escape \"" ++ ['%'] ++ s2l "\"")
  | c :: rest =>
    if c.toNat < 0x80 && shouldEscapeHost c then
      .error (s2l "invalid character \"" ++ [c] ++ s2l "\" in host name")
    else
      match unescapeHostGo rest with
      | .error e => .error e
      | .ok t => .ok (c :: t)

/-- Go `unescape(s, encodeZone)`: host character checks without the `%XX`
below-`%80` restriction. -/
def unescapeZoneGo : Str → Except Str Str
  | [] => .ok []
  | '%' :: a :: b :: rest =>
    if isHexDigitGo a && isHexDigitGo b then
      match unescapeZoneGo rest with
      | .error e => .error e
      | .ok t => .ok (Char.ofNat (16 * unhexGo a + unhexGo b) :: t)
    else .error (s2l "invalid URL escape \"" ++ ['%', a, b] ++ s2l "\"")
  | ['%', a] => .error (s2l "invalid URL escape \"" ++ ['%', a] ++ s2l "\"")
  | ['%'] => .error (s2l "invalid URL escape \"" ++ ['%'] ++ s2l "\"")
  | c :: rest =>
    if c.toNat < 0x80 && shouldEscapeHost c then
      .error (s2l "invalid character \"" ++ [c] ++ s2l "\" in host name")
    else
      match unescapeZoneGo rest with
      | .error e => .error e
      | .ok t => .ok (c :: t)

/-- Go `validEncoded(s, encodePath)`: every character is either one of the
literally-allowed bytes or one that path mode would not escape ('%' is
checked separately by the caller and allowed here, as in Go). -/
def validEncodedPath (s : Str) : Bool :=
  s.all (fun c =>
    containsChar c (s2l "!$&\x27()*+,;=:@[]%") || !shouldEscapePath c)

/-! ## Go standard library model: path.Clean / url.JoinPath -/

/-- One step of Go `path.Clean` on a rooted path, processed per segment:
empty and `.` segments vanish, `..` pops, anything else pushes. -/
def cleanSegsStep (stack : List Str) (seg : Str) : List Str :=
  if seg = [] || seg = s2l "." then stack
  else if seg = s2l ".." then stack.dropLast
  else stack ++ [seg]

/-- Go `path.Clean` restricted to rooted paths (every call site in this
model passes a path starting with `/`): splits on `/`, folds the segments,
and re-roots.  Matches Go's lazybuf algorithm for rooted inputs. -/
def pathCleanRooted (s : Str) : Str :=
  '/' :: joinWithChar '/' ((splitOnChar '/' s).foldl cleanSegsStep [])

/-- Go `path.Join("/", e)`: concatenates with `/` separators and cleans.
For `e = ""` only `"/"` is joined; `Clean("//") = "/"` makes the uniform
form below correct in that case as well. -/
def joinSlash (e : Str) : Str := pathCleanRooted ('/' :: '/' :: e)

/-- Go `URL.setPath(p)` followed by `URL.EscapedPath()`: `none` when `p`
holds an invalid escape (Go then leaves the path empty and `String()` shows
no path); otherwise the escaped path `String()` will print — `p` itself when
it is the canonical escaping or a valid alternative encoding, else the
re-escaped decoded path. -/
def setPathEscaped (p : Str) : Option Str :=
  match unescapePlain p with
  | .error _ => none
  | .ok d =>
    if p = escapePath d then some p
    else if validEncodedPath p then some p
    else some (escapePath d)

/-- Go `url.JoinPath(base, e).String()` specialized to a base of the shape
`scheme://host:port` — parsed path and query empty — which is what
`BaseUrlStr` produces for a well-formed descriptor.  Follows Go's
`URL.JoinPath`: prepend the base's (empty) escaped path, `path.Join`, keep
one trailing slash, `setPath`, and `String()` (which inserts the `/`
between authority and a rootless path). -/
def urlJoinPath (base e : Str) : Str :=
  let p0 := (joinSlash e).drop 1
  let p1 := if endsWithChar '/' e && !endsWithChar '/' p0 then p0 ++ ['/'] else p0
  match setPathEscaped p1 with
  | none => base
  | some esc =>
    if esc = [] then base
    else if esc.head? = some '/' then base ++ esc
    else base ++ '/' :: esc

/-- `(*ConnStr).CreateUrlStr` (src/nsqlitedsn/connstr.go lines 104-124):
splits the path on `?`, keeps `parts[0]` as the path and `parts[1]` as the
query when a `?` is present, joins the base URL with the path via
`url.JoinPath`, and re-appends `"?" + query` when the query is non-empty.
Returns the result together with the receiver after defaulting.  (The
`url.JoinPath` error branch is unreachable for the well-formed bases this
model covers, so the result is always `.ok`.) -/
def createUrlStr (c : ConnStr) (path : Str) : Except Str Str × ConnStr :=
  let d := setDefaultsIfEmpty c
  let parts := splitOnChar '?' path
  let path2 := if 1 < parts.length then parts.getD 0 [] else path
  let query := if 1 < parts.length then parts.getD 1 [] else []
  let joined := urlJoinPath (baseUrlStr d).1 path2
  (.ok (if query = [] then joined else joined ++ '?' :: query), d)

/-! ## Go standard library model: net/url Parse -/

/-- ASCII control byte (Go `stringContainsCTLByte` predicate, per byte). -/
def isCTL (c : Char) : Bool := c.toNat < 0x20 || c.toNat = 0x7f

/-- Worker for Go `getScheme`: `acc` holds the scheme candidate reversed,
`first` marks position 0. -/
def getSchemeAux (acc : Str) (first : Bool) : Str → Except Str (Str × Str)
  | [] => .ok ([], acc.reverse)
  | c :: rest =>
    if c.isAlpha then getSchemeAux (c :: acc) false rest
    else if c.isDigit || c = '+' || c = '-' || c = '.' then
      if first then .ok ([], acc.reverse ++ c :: rest)
      else getSchemeAux (c :: acc) false rest
    else if c = ':' then
      if first then .error (s2l "missing protocol scheme")
      else .ok (acc.reverse, rest)
    else .ok ([], acc.reverse ++ c :: rest)

/-- Go `getScheme(rawURL)`: splits a leading `scheme:`; a URL without one
comes back with an empty scheme and the input untouched. -/
def getScheme (s : Str) : Except Str (Str × Str) := getSchemeAux [] true s

/-- Split at the LAST occurrence of `c`: `some (before, after)`, or `none`
when `c` does not occur (Go `strings.LastIndex` idiom). -/
def splitAtLastChar (c : Char) (s : Str) : Option (Str × Str) :=
  let r := cutChar c s.reverse
  if r.2.2 then some (r.2.1.reverse, r.1.reverse) else none

/-- Go `validOptionalPort`: empty, or `:` followed by digits only. -/
def validOptionalPort : Str → Bool
  | [] => true
  | ':' :: ds => ds.all Char.isDigit
  | _ => false

/-- Go `validUserinfo`: the characters RFC 3986 allows in userinfo. -/
def validUserinfo (s : Str) : Bool :=
  s.all (fun c =>
    c.isAlpha || c.isDigit || containsChar c (s2l "-._:~!$&\x27()*+,;=%@"))

/-- Index of the first occurrence of the literal `%25` (zone marker in a
bracketed IPv6 host), if any. -/
def indexOfPct25 : Str → Option Nat
  | '%' :: '2' :: '5' :: _ => some 0
  | _ :: rest => (indexOfPct25 rest).map (· + 1)
  | [] => none

/-- Go `parseHost`: validates a bracketed IPv6 (with optional `%25` zone)
or the port of a plain `host:port`, then host-unescapes. -/
def parseHost (host : Str) : Except Str Str :=
  if host.head? = some '[' then
    match splitAtLastChar ']' host with
    | none => .error (s2l "missing \x27]\x27 in host")
    | some (pre, post) =>
      if !validOptionalPort post then
        .error (s2l "invalid port \"" ++ post ++ s2l "\" after host")
      else
        match indexOfPct25 pre with
        | some z =>
          match unescapeHostGo (pre.take z) with
          | .error e => .error e
          | .ok h1 =>
            match unescapeZoneGo (pre.drop z) with
            | .error e => .error e
            | .ok h2 =>
              match unescapeHostGo (']' :: post) with
              | .error e => .error e
              | .ok h3 => .ok (h1 ++ h2 ++ h3)
        | none => unescapeHostGo host
  else
    match splitAtLastChar ':' host with
    | some (_, post) =>
      if !validOptionalPort (':' :: post) then
        .error (s2l "invalid port \"" ++ ':' :: post ++ s2l "\" after host")
      else unescapeHostGo host
    | none => unescapeHostGo host

/-- Go `parseAuthority`: splits the userinfo at the last `@`, parses the
host first (as Go does), then validates and unescapes the userinfo. -/
def parseAuthority (authority : Str) : Except Str Str :=
  match splitAtLastChar '@' authority with
  | none => parseHost authority
  | some (userinfo, hostPart) =>
    match parseHost hostPart with
    | .error e => .error e
    | .ok h =>
      if !validUserinfo userinfo then .error (s2l "net/url: invalid userinfo")
      else if containsChar ':' userinfo then
        let cu := cutChar ':' userinfo
        match unescapePlain cu.1 with
        | .error e => .error e
        | .ok _ =>
          match unescapePlain cu.2.1 with
          | .error e => .error e
          | .ok _ => .ok h
      else
        match unescapePlain userinfo with
        | .error e => .error e
        | .ok _ => .ok h

/-- The fields of a parsed Go `url.URL` that `NewConnStrFromText` reads
(plus the opaque/path parts needed to follow the parse flow). -/
structure GoURL where
  scheme : Str
  opq : Str
  host : Str
  rawQuery : Str
  pathDec : Str
  deriving DecidableEq, Repr

/-- Go `parse(rawURL, viaRequest=false)`: control-character check, scheme
split, query split (with the lone-`?` ForceQuery case), opaque rootless
paths under a scheme, the relative-URL colon check, authority parsing for
`//`-prefixed rests, and `setPath`. -/
def goParseInner (rawURL : Str) : Except Str GoURL :=
  if rawURL.any isCTL then
    .error (s2l "net/url: invalid control character in URL")
  else if rawURL = s2l "*" then
    .ok ⟨[], [], [], [], s2l "*"⟩
  else
    match getScheme rawURL with
    | .error e => .error e
    | .ok (scheme0, rest0) =>
      let scheme := lowerStr scheme0
      let qr :=
        if endsWithChar '?' rest0 && !containsChar '?' rest0.dropLast then
          (rest0.dropLast, ([] : Str))
        else
          let cr := cutChar '?' rest0
          (cr.1, cr.2.1)
      let rest1 := qr.1
      let rawQuery := qr.2
      if rest1.head? ≠ some '/' ∧ scheme ≠ [] then
        .ok ⟨scheme, rest1, [], rawQuery, []⟩
      else
        if rest1.head? ≠ some '/' ∧ scheme = [] ∧
            containsChar ':' (cutChar '/' rest1).1 then
          .error (s2l "first path segment in URL cannot contain colon")
        else
          if (scheme ≠ [] ∨ ¬ (rest1.take 3 = s2l "///")) ∧
              rest1.take 2 = s2l "//" then
            let afterSlashes := rest1.drop 2
            let cs := cutChar '/' afterSlashes
            let authority := cs.1
            let rest2 := if cs.2.2 then '/' :: cs.2.1 else []
            match parseAuthority authority with
            | .error e => .error e
            | .ok h =>
              match unescapePlain rest2 with
              | .error e => .error e
              | .ok d => .ok ⟨scheme, [], h, rawQuery, d⟩
          else
            match unescapePlain rest1 with
            | .error e => .error e
            | .ok d => .ok ⟨scheme, [], [], rawQuery, d⟩

/-- Go `url.Parse`: cuts the fragment, parses, validates the fragment's
escapes, and wraps failures as `parse "<url>": <err>` (`%q` modelled as
plain quoting; exact for inputs free of characters Go would render
escaped). -/
def goURLParse (rawURL : Str) : Except Str GoURL :=
  let cf := cutChar '#' rawURL
  match goParseInner cf.1 with
  | .error e => .error (s2l "parse \"" ++ cf.1 ++ s2l "\": " ++ e)
  | .ok u =>
    if cf.2.1 = [] then .ok u
    else
      match unescapePlain cf.2.1 with
      | .error e => .error (s2l "parse \"" ++ rawURL ++ s2l "\": " ++ e)
      | .ok _ => .ok u

/-- Go `splitHostPort` (used by `URL.Hostname`/`URL.Port`): strip a valid
numeric port after the last `:`, then strip surrounding brackets. -/
def splitHostPort (hostPort : Str) : Str × Str :=
  let hp :=
    match splitAtLastChar ':' hostPort with
    | some (pre, post) =>
      if validOptionalPort (':' :: post) then (pre, post) else (hostPort, [])
    | none => (hostPort, [])
  if hp.1.head? = some '[' && endsWithChar ']' hp.1 then
    ((hp.1.drop 1).dropLast, hp.2)
  else hp

/-- `URL.Hostname()`. -/
def hostnameOf (u : GoURL) : Str := (splitHostPort u.host).1

/-- `URL.Port()`. -/
def portOf (u : GoURL) : Str := (splitHostPort u.host).2

/-- One component of a query string, as handled by one iteration of Go
`url.ParseQuery`: components containing `;` and empty components are
skipped, any other is cut at the first `=` and both halves are
query-unescaped (a failing unescape skips the pair). -/
def parseQueryComponent (key : Str) : List (Str × Str) :=
  if containsChar ';' key || key = [] then []
  else
    let kv := cutChar '=' key
    match unescapeQueryGo kv.1, unescapeQueryGo kv.2.1 with
    | .ok k, .ok v => [(k, v)]
    | _, _ => []

/-- Go `url.ParseQuery` as used by `URL.Query()` (its error is ignored by
`Query()`, bad pairs are skipped): Go's `strings.Cut` loop over `&` visits
exactly the `&`-separated components in order. -/
def parseQueryPairs (q : Str) : List (Str × Str) :=
  ((splitOnChar '&' q).map parseQueryComponent).flatten

/-- `URL.Query().Get(name)`: first value for the key, `""` if absent. -/
def queryGet (rawQuery : Str) (name : Str) : Str :=
  match (parseQueryPairs rawQuery).find? (fun p => p.1 = name) with
  | some p => p.2
  | none => []

/-- `NewConnStrFromText` (src/nsqlitedsn/connstr.go lines 52-79): parse the
URL, require scheme `http`/`https`, require a non-empty hostname, default
the port to `9876`, and read the `authToken` query parameter. -/
def newConnStrFromText (s : Str) : Except Str ConnStr :=
  match goURLParse s with
  | .error e => .error e
  | .ok u =>
    if u.scheme ≠ s2l "http" ∧ u.scheme ≠ s2l "https" then
      .error (s2l "invalid protocol, must be http or https")
    else if hostnameOf u = [] then
      .error (s2l "host is required")
    else
      .ok ⟨u.scheme, hostnameOf u,
           (if portOf u = [] then s2l "9876" else portOf u),
           queryGet u.rawQuery (s2l "authToken")⟩

/-! ## Statement/result adapter (src/internal/nsqlitedriver/stmt.go) -/

/-- Scalar values travelling in rows and parameters.  No claim inspects the
values themselves, so the payload of the numeric/text kinds is enough. -/
inductive SqlValue where
  | nullV
  | intV (n : Int)
  | textV (s : Str)
  | boolV (b : Bool)
  deriving DecidableEq, Repr

/-- `QueryRows` (src/internal/nsqlitedriver/stmt.go): buffered result set of
a read query. -/
structure QueryRows where
  columns : List Str
  types : List Str
  values : List (List SqlValue)
  valuesLen : Nat
  rowIdx : Nat
  deriving DecidableEq, Repr

/-- `(*QueryRows).ColumnTypeDatabaseTypeName` (src/internal/nsqlitedriver/
stmt.go): `""` for a negative index, `""` for an index at or past
`len(r.types)`, otherwise `strings.ToUpper(r.types[index])`.  Go's `int`
argument is modelled as `Int`. -/
def columnTypeDatabaseTypeName (r : QueryRows) (index : Int) : Str :=
  if index < 0 then []
  else if (r.types.length : Int) ≤ index then []
  else upperStr (r.types.getD index.toNat [])

/-! ## nsqlitehttp wire protocol (src/unnamed/part_004, src/nsqlitehttp/client.go) -/

/-- `QueryResponseType`: discriminator of the tagged response envelope. -/
inductive QueryResponseType where
  | error
  | okResp
  | begin
  | commit
  | rollback
  | write
  | read
  deriving DecidableEq, Repr

/-- The Go string of a `QueryResponseType` as printed by
`fmt.Errorf("unexpected response type: %s", resp.Type)`. -/
def responseTypeStr : QueryResponseType → Str
  | .error => s2l "error"
  | .okResp => s2l "ok"
  | .begin => s2l "begin"
  | .commit => s2l "commit"
  | .rollback => s2l "rollback"
  | .write => s2l "write"
  | .read => s2l "read"

/-- `QueryResponse` (nsqlitehttp): the tagged response envelope entry.  The
`Time float64` field is omitted: no claim depends on it and floating point is
outside the embedding. -/
structure QueryResponse where
  rtype : QueryResponseType
  Columns : List Str
  Types : List Str
  Values : List (List SqlValue)
  LastInsertID : Int
  RowsAffected : Int
  TxId : Str
  Error : Str
  deriving DecidableEq, Repr

/-- `Query` (nsqlitehttp): a query as submitted on the wire. -/
structure Query where
  Query : Str
  Params : List SqlValue
  TxId : Str
  deriving DecidableEq, Repr

/-- Outcome of one `client.Query`/`SendQuery` round trip as observed by the
driver: either the transport fails with an error message, or a decoded
response envelope entry arrives. -/
inductive WireResult where
  | transportError (msg : Str)
  | response (r : QueryResponse)
  deriving DecidableEq, Repr

deriving instance DecidableEq for Except

/-! ## Connection/transaction state machine (src/unnamed/part_002, first
revision: the context-aware `Conn` with the `txId` field) -/

/-- `Conn`: the driver connection.  Its only mutable field is `txId`
(empty string = no active transaction). -/
structure Conn where
  txId : Str
  deriving DecidableEq, Repr

/-- Result of one `Conn` transaction method: the returned Go error (`.ok` for
`nil`), the connection state after the call, and the wire requests issued
during the call (reified so "no request was sent" is expressible). -/
structure TxStep where
  result : Except Str Unit
  conn : Conn
  sent : List Query
  deriving DecidableEq, Repr

/-- The fixed `BEGIN;` query sent by `Conn.BeginTx`. -/
def beginQuery : Query := ⟨s2l "BEGIN;", [], []⟩

/-- `Conn.BeginTx`: sends `BEGIN;`; on a transport error or an `error`-kind
or non-`begin`-kind response returns an error (leaving `txId` untouched);
on a `begin`-kind response stores the returned transaction id via
`setTxId`. -/
def beginTx (c : Conn) (w : WireResult) : TxStep :=
  match w with
  | .transportError m =>
    ⟨.error (s2l "failed to begin transaction: " ++ m), c, [beginQuery]⟩
  | .response r =>
    if r.rtype = .error then
      ⟨.error (s2l "failed to begin transaction: " ++ r.Error), c, [beginQuery]⟩
    else if r.rtype ≠ .begin then
      ⟨.error (s2l "unexpected response type: " ++ responseTypeStr r.rtype), c, [beginQuery]⟩
    else
      ⟨.ok (), ⟨r.TxId⟩, [beginQuery]⟩

/-- `Conn.CommitTx`: `defer c.setTxId("")` runs on every return path, so the
stored id is cleared whatever happens; if no transaction is active the method
returns `nil` without sending anything; otherwise it sends `COMMIT` tagged
with the stored id and classifies the response. -/
def commitTx (c : Conn) (w : WireResult) : TxStep :=
  if c.txId = [] then ⟨.ok (), ⟨[]⟩, []⟩
  else
    let q : Query := ⟨s2l "COMMIT", [], c.txId⟩
    match w with
    | .transportError m => ⟨.error (s2l "failed to commit transaction: " ++ m), ⟨[]⟩, [q]⟩
    | .response r =>
      if r.rtype = .error then
        ⟨.error (s2l "failed to commit transaction: " ++ r.Error), ⟨[]⟩, [q]⟩
      else if r.rtype ≠ .commit then
        ⟨.error (s2l "unexpected response type: " ++ responseTypeStr r.rtype), ⟨[]⟩, [q]⟩
      else ⟨.ok (), ⟨[]⟩, [q]⟩

/-- `Conn.RollbackTx`: same shape as `CommitTx` with `ROLLBACK`. -/
def rollbackTx (c : Conn) (w : WireResult) : TxStep :=
  if c.txId = [] then ⟨.ok (), ⟨[]⟩, []⟩
  else
    let q : Query := ⟨s2l "ROLLBACK", [], c.txId⟩
    match w with
    | .transportError m => ⟨.error (s2l "failed to rollback transaction: " ++ m), ⟨[]⟩, [q]⟩
    | .response r =>
      if r.rtype = .error then
        ⟨.error (s2l "failed to rollback transaction: " ++ r.Error), ⟨[]⟩, [q]⟩
      else if r.rtype ≠ .rollback then
        ⟨.error (s2l "unexpected response type: " ++ responseTypeStr r.rtype), ⟨[]⟩, [q]⟩
      else ⟨.ok (), ⟨[]⟩, [q]⟩

/-- `Conn.Close`: calls `RollbackTx` and, when it fails, returns the failure
wrapped as `failed closing connection: %w`. -/
def closeConn (c : Conn) (w : WireResult) : TxStep :=
  let r := rollbackTx c w
  match r.result with
  | .error e => ⟨.error (s2l "failed closing connection: " ++ e), r.conn, r.sent⟩
  | .ok _ => ⟨.ok (), r.conn, r.sent⟩

/-- Whether a wire outcome is a `begin`-kind response. -/
def isBeginResponse : WireResult → Bool
  | .response r => r.rtype = .begin
  | .transportError _ => false

/-- `true` on Go `nil` error, `false` on a non-nil error. -/
def exceptIsOk {ε α : Type} : Except ε α → Bool
  | .ok _ => true
  | .error _ => false

/-! ## Statement adapter (src/internal/nsqlitedriver/stmt.go, second
revision: the context-aware statement bound to a `Conn`) -/

/-- `driver.NamedValue`: a statement argument. -/
structure NamedValue where
  Name : Str
  Ordinal : Int
  Value : SqlValue
  deriving DecidableEq, Repr

/-- `convertNamedValueToAnyArray`: keeps only the values, in order. -/
def convertNamedValueToAnyArray (args : List NamedValue) : List SqlValue :=
  args.map (fun a => a.Value)

/-- `Stmt`: a prepared statement bound to its connection and query text. -/
structure Stmt where
  conn : Conn
  query : Str
  deriving DecidableEq, Repr

/-- `ExecResult`: surfaced `lastInsertId`/`rowsAffected`. -/
structure ExecResult where
  lastInsertId : Int
  rowsAffected : Int
  deriving DecidableEq, Repr

/-- `Stmt.ExecContext` (src/internal/nsqlitedriver/stmt.go lines 186-203):
sends the statement's query, its converted arguments and the connection's
current transaction id; fails on transport errors and on `error`-kind
responses with the carried message; for EVERY other response kind it builds
an `ExecResult` from `LastInsertID`/`RowsAffected` — unlike `QueryContext`
(and unlike the earlier revision of `Exec`), it has no
`resp.Type != QueryResponseWrite` check. -/
def execContext (s : Stmt) (args : List NamedValue) (w : WireResult) :
    Except Str ExecResult × List Query :=
  let q : Query := ⟨s.query, convertNamedValueToAnyArray args, s.conn.txId⟩
  match w with
  | .transportError m => (.error (s2l "failed to execute query: " ++ m), [q])
  | .response r =>
    if r.rtype = .error then
      (.error (s2l "failed to execute query: " ++ r.Error), [q])
    else
      (.ok ⟨r.LastInsertID, r.RowsAffected⟩, [q])

/-- `Stmt.QueryContext` (same file): the symmetric read path, which DOES
reject every response kind other than `read` after the `error` check. -/
def queryContext (s : Stmt) (args : List NamedValue) (w : WireResult) :
    Except Str QueryRows × List Query :=
  let q : Query := ⟨s.query, convertNamedValueToAnyArray args, s.conn.txId⟩
  match w with
  | .transportError m => (.error (s2l "failed to execute query: " ++ m), [q])
  | .response r =>
    if r.rtype = .error then
      (.error (s2l "failed to execute query: " ++ r.Error), [q])
    else if r.rtype ≠ .read then
      (.error (s2l "unexpected response type: " ++ responseTypeStr r.rtype), [q])
    else
      (.ok ⟨r.Columns, r.Types, r.Values, r.Values.length, 0⟩, [q])

/-! ## Batch client (src/nsqlitehttp/client.go, SendQueries) -/

/-- Outcome of the single `POST /query` HTTP exchange made by `SendQueries`:
a transport failure, or a response with a status code, status text and the
result of JSON-decoding the `{"results": [...]}` envelope from the body
(decoding failure carries the decoder's message). -/
inductive HttpOutcome where
  | transportError (msg : Str)
  | response (status : Nat) (statusText : Str) (envelope : Except Str (List QueryResponse))
  deriving DecidableEq, Repr

/-- `Client.SendQueries` (src/nsqlitehttp/client.go lines 256-296): one POST
carrying the whole batch; 401 maps to the auth error, any other non-200 to a
server error, a decode failure to a protocol error, an empty decoded results
list to `empty response`; otherwise the decoded list is returned verbatim.
(The `json.Marshal(queries)` step cannot fail for the marshallable `Query`
values modelled here and is therefore not a failure case.) -/
def sendQueries (queries : List Query) (o : HttpOutcome) :
    Except Str (List QueryResponse) :=
  match o with
  | .transportError m => .error (s2l "failed to send request: " ++ m)
  | .response status statusText envelope =>
    if status = 401 then .error (s2l "authentication failed, please check your credentials")
    else if status ≠ 200 then .error (s2l "unwanted response status: " ++ statusText)
    else
      match envelope with
      | .error m => .error (s2l "failed to decode response: " ++ m)
      | .ok results =>
        if results.length = 0 then .error (s2l "empty response")
        else .ok results

/-! ## Health probe (src/nsqlitehttp/client.go, SendPing) -/

/-- Outcome of the `GET /health` exchange made by `SendPing`: transport
failure, or a response carrying status code, status text, the response
headers, and the result of reading the body. -/
inductive PingOutcome where
  | transportError (msg : Str)
  | response (status : Nat) (statusText : Str) (headers : List (Str × Str))
      (body : Except Str Str)
  deriving DecidableEq, Repr

/-- `Client.SendPing` (src/nsqlitehttp/client.go lines 102-134): requires
status 200, then requires the body to equal `"ok"` case-insensitively; on a
mismatch the reported body is truncated to its first 100 characters plus
`"..."` when longer than 100.  The response headers are never consulted. -/
def sendPing (o : PingOutcome) : Except Str Unit :=
  match o with
  | .transportError m => .error (s2l "failed to send request: " ++ m)
  | .response status statusText _headers body =>
    if status ≠ 200 then .error (s2l "unwanted response status " ++ statusText)
    else
      match body with
      | .error m => .error (s2l "failed to read response body: " ++ m)
      | .ok bodyStr =>
        if lowerStr bodyStr ≠ s2l "ok" then
          let shown := if 100 < bodyStr.length then bodyStr.take 100 ++ s2l "..." else bodyStr
          .error (s2l "health check expected to return \"OK\" but got \"" ++ shown ++ s2l "\"")
        else .ok ()

/-! ## Helper lemmas -/

/-- `CommitTx` always ends with an empty stored transaction id (the
`defer setTxId("")` discipline). -/
theorem commitTx_clears_txId (c : Conn) (w : WireResult) :
    (commitTx c w).conn.txId = [] := by
  unfold commitTx
  split
  · rfl
  · cases w with
    | transportError m => rfl
    | response r =>
      simp only
      split
      · rfl
      · split
        · rfl
        · rfl

/-- `RollbackTx` always ends with an empty stored transaction id. -/
theorem rollbackTx_clears_txId (c : Conn) (w : WireResult) :
    (rollbackTx c w).conn.txId = [] := by
  unfold rollbackTx
  split
  · rfl
  · cases w with
    | transportError m => rfl
    | response r =>
      simp only
      split
      · rfl
      · split
        · rfl
        · rfl

/-- A string free of the separator splits to itself alone. -/
theorem splitOnChar_eq_single {c : Char} :
    ∀ {s : Str}, containsChar c s = false → splitOnChar c s = [s]
  | [], _ => rfl
  | x :: xs, h => by
    have hparts : ¬ (x = c) ∧ containsChar c xs = false := by
      simpa [containsChar] using h
    have ih := splitOnChar_eq_single (c := c) hparts.2
    simp [splitOnChar, hparts.1, ih]

/-- Splitting at an explicit separator occurrence after a separator-free
prefix peels off exactly that prefix. -/
theorem splitOnChar_append {c : Char} :
    ∀ {p : Str} (q : Str), containsChar c p = false →
      splitOnChar c (p ++ c :: q) = p :: splitOnChar c q
  | [], q, _ => by simp [splitOnChar]
  | x :: p', q, h => by
    have hparts : ¬ (x = c) ∧ containsChar c p' = false := by
      simpa [containsChar] using h
    have ih := splitOnChar_append (c := c) (p := p') q hparts.2
    simp [splitOnChar, hparts.1, ih]

/-- Go `path.Clean` ignores an extra leading slash on a rooted path. -/
theorem pathCleanRooted_cons_slash (s : Str) :
    pathCleanRooted ('/' :: s) = pathCleanRooted s := by
  unfold pathCleanRooted
  have h : splitOnChar '/' ('/' :: s) = [] :: splitOnChar '/' s := by
    simp [splitOnChar]
  rw [h]
  rfl

/-- `url.JoinPath` does not duplicate a leading slash of a non-empty path
element (the cleaning step collapses it). -/
theorem urlJoinPath_cons_slash (base : Str) (y : Char) (ys : Str) :
    urlJoinPath base ('/' :: y :: ys) = urlJoinPath base (y :: ys) := by
  have h : joinSlash ('/' :: y :: ys) = joinSlash (y :: ys) := by
    unfold joinSlash
    exact pathCleanRooted_cons_slash ('/' :: '/' :: y :: ys)
  unfold urlJoinPath
  rw [h]
  rfl

/-! ## Claim C6 -/

/-- Claim C6 counterexample: for a path holding more than one `?`, the
portion after the FIRST `?` is `q=a?b`, but `CreateUrlStr` keeps only
`parts[1]` of `strings.Split(path, "?")`, so everything from the second `?`
on is silently dropped: the result is `.../search?q=a`, not the claimed
`.../search?q=a?b`. -/
theorem claimC6_counterexample :
    (createUrlStr ⟨s2l "http", s2l "example.com", s2l "8080", []⟩
      (s2l "search?q=a?b")).1 = .ok (s2l "http://example.com:8080/search?q=a") ∧
    (createUrlStr ⟨s2l "http", s2l "example.com", s2l "8080", []⟩
      (s2l "search?q=a?b")).1 ≠ .ok (s2l "http://example.com:8080/search?q=a?b") := by
  decide

/-- Claim C6 as amended: `CreateUrlStr` joins the base URL with the path
without duplicating a leading `/`; when the path contains exactly one `?`,
the whole portion after it is appended verbatim (not merged, escaped, or
dropped) — but with a second `?` present only the portion BETWEEN the first
and second `?` survives, and an empty query after a lone `?` loses its `?`;
the concrete conjuncts are the spec's round trips (plain path, verbatim
space-holding query, empty path, and path `/`). -/
theorem claimC6_createUrlStr_query_handling :
    (∀ (c : ConnStr) (p q : Str), containsChar '?' p = false →
      containsChar '?' q = false → q ≠ [] →
      (createUrlStr c (p ++ '?' :: q)).1
        = Except.map (fun u => u ++ '?' :: q) (createUrlStr c p).1) ∧
    (∀ (c : ConnStr) (p q r : Str), containsChar '?' p = false →
      containsChar '?' q = false →
      (createUrlStr c (p ++ '?' :: q ++ '?' :: r)).1
        = (createUrlStr c (p ++ '?' :: q)).1) ∧
    (∀ (c : ConnStr) (p : Str), containsChar '?' p = false →
      (createUrlStr c (p ++ ['?'])).1 = (createUrlStr c p).1) ∧
    (∀ (base : Str) (y : Char) (ys : Str),
      urlJoinPath base ('/' :: y :: ys) = urlJoinPath base (y :: ys)) ∧
    ((createUrlStr ⟨s2l "http", s2l "example.com", s2l "8080", []⟩
        (s2l "api/v1/resource")).1 = .ok (s2l "http://example.com:8080/api/v1/resource") ∧
     (createUrlStr ⟨s2l "http", s2l "example.com", s2l "8080", []⟩
        (s2l "search?q=a b")).1 = .ok (s2l "http://example.com:8080/search?q=a b") ∧
     (createUrlStr ⟨s2l "http", s2l "example.com", s2l "80", []⟩ []).1
        = .ok (s2l "http://example.com:80") ∧
     (createUrlStr ⟨s2l "https", s2l "example.com", s2l "443", []⟩ (s2l "/")).1
        = .ok (s2l "https://example.com:443/")) := by
  refine ⟨?_, ?_, ?_, urlJoinPath_cons_slash, by decide⟩
  · intro c p q hp hq hqne
    have h1 : splitOnChar '?' (p ++ '?' :: q) = p :: splitOnChar '?' q :=
      splitOnChar_append q hp
    have h2 : splitOnChar '?' q = [q] := splitOnChar_eq_single hq
    have h3 : splitOnChar '?' p = [p] := splitOnChar_eq_single hp
    simp [createUrlStr, h1, h2, h3, hqne, Except.map]
  · intro c p q r hp hq
    have h1 : splitOnChar '?' (p ++ '?' :: (q ++ '?' :: r))
        = p :: (q :: splitOnChar '?' r) := by
      rw [splitOnChar_append (q ++ '?' :: r) hp, splitOnChar_append r hq]
    have h2 : splitOnChar '?' (p ++ '?' :: q) = p :: [q] := by
      rw [splitOnChar_append q hp, splitOnChar_eq_single hq]
    simp [createUrlStr, h1, h2]
  · intro c p hp
    have h1 : splitOnChar '?' (p ++ '?' :: ([] : Str))
        = p :: splitOnChar '?' ([] : Str) := splitOnChar_append [] hp
    have h3 : splitOnChar '?' p = [p] := splitOnChar_eq_single hp
    simp only [splitOnChar] at h1
    simp [createUrlStr, h1, h3]

/-- Witness for the amended C6: the single-`?` verbatim-query conjunct at
the spec's `search?q=a b` scenario, and the lone-trailing-`?` conjunct at
`search?` (whose `?` vanishes from the produced URL). -/
theorem claimC6_createUrlStr_query_handling_witness :
    ((createUrlStr ⟨s2l "http", s2l "example.com", s2l "80", []⟩
      (s2l "search" ++ '?' :: s2l "q=a b")).1
      = Except.map (fun u => u ++ '?' :: s2l "q=a b")
          (createUrlStr ⟨s2l "http", s2l "example.com", s2l "80", []⟩ (s2l "search")).1) ∧
    ((createUrlStr ⟨s2l "http", s2l "example.com", s2l "80", []⟩
      (s2l "search" ++ ['?'])).1
      = (createUrlStr ⟨s2l "http", s2l "example.com", s2l "80", []⟩ (s2l "search")).1) :=
  ⟨claimC6_createUrlStr_query_handling.1
    ⟨s2l "http", s2l "example.com", s2l "80", []⟩
    (s2l "search") (s2l "q=a b") (by decide) (by decide) (by decide),
   claimC6_createUrlStr_query_handling.2.2.1
    ⟨s2l "http", s2l "example.com", s2l "80", []⟩
    (s2l "search") (by decide)⟩

/-! ## Claim C7 -/

/-- Claim C7 counterexample: `"http//host"` is NOT rejected by the URL
parser — it parses as a scheme-less relative URL — so `NewConnStrFromText`
fails with the InvalidProtocol error (`invalid protocol, must be http or
https`), not with a MalformedInput (URL-parse) error as the claim states. -/
theorem claimC7_counterexample :
    goURLParse (s2l "http//host") = .ok ⟨[], [], [], [], s2l "http//host"⟩ ∧
    newConnStrFromText (s2l "http//host")
      = .error (s2l "invalid protocol, must be http or https") := by
  decide

/-- Claim C7 as amended: when the URL parser succeeds, a scheme other than
exactly `http`/`https` yields the InvalidProtocol error and (with a valid
scheme) an empty hostname yields the MissingHost error; when the URL parser
itself fails, its error is returned verbatim (the MalformedInput kind, e.g.
for an invalid port) — but `http//host` belongs to the first class, not the
third; the concrete scenarios parse as specified, and the three error
messages are pairwise distinct. -/
theorem claimC7_parse_error_kinds :
    (∀ (s : Str) (u : GoURL), goURLParse s = .ok u →
      u.scheme ≠ s2l "http" → u.scheme ≠ s2l "https" →
      newConnStrFromText s = .error (s2l "invalid protocol, must be http or https")) ∧
    (∀ (s : Str) (u : GoURL), goURLParse s = .ok u →
      (u.scheme = s2l "http" ∨ u.scheme = s2l "https") → hostnameOf u = [] →
      newConnStrFromText s = .error (s2l "host is required")) ∧
    (∀ (s e : Str), goURLParse s = .error e → newConnStrFromText s = .error e) ∧
    (newConnStrFromText (s2l "ftp://host")
        = .error (s2l "invalid protocol, must be http or https") ∧
     newConnStrFromText (s2l "http://:9090") = .error (s2l "host is required") ∧
     newConnStrFromText (s2l "http://example.com:badport")
        = .error (s2l "parse \"http://example.com:badport\": invalid port \":badport\" after host") ∧
     newConnStrFromText (s2l "https://example.com:8080?authToken=secret")
        = .ok ⟨s2l "https", s2l "example.com", s2l "8080", s2l "secret"⟩ ∧
     newConnStrFromText (s2l "http://example.com")
        = .ok ⟨s2l "http", s2l "example.com", s2l "9876", []⟩) ∧
    (s2l "invalid protocol, must be http or https" ≠ s2l "host is required" ∧
     s2l "invalid protocol, must be http or https"
        ≠ s2l "parse \"http://example.com:badport\": invalid port \":badport\" after host" ∧
     s2l "host is required"
        ≠ s2l "parse \"http://example.com:badport\": invalid port \":badport\" after host") := by
  refine ⟨?_, ?_, ?_, by decide, by decide⟩
  · intro s u h h1 h2
    unfold newConnStrFromText
    rw [h]
    simp [h1, h2]
  · intro s u h hsch hh
    unfold newConnStrFromText
    rw [h]
    rcases hsch with h1 | h1
    · simp [h1, hh]
    · simp [h1, hh]
  · intro s e h
    unfold newConnStrFromText
    rw [h]

/-- Witness for the amended C7: the InvalidProtocol clause applied at
`ftp://host` (whose parsed descriptor is explicit) and the MalformedInput
pass-through clause applied at the invalid-port input. -/
theorem claimC7_parse_error_kinds_witness :
    newConnStrFromText (s2l "ftp://host")
      = .error (s2l "invalid protocol, must be http or https") ∧
    newConnStrFromText (s2l "http://example.com:badport")
      = .error (s2l "parse \"http://example.com:badport\": invalid port \":badport\" after host") :=
  ⟨claimC7_parse_error_kinds.1 (s2l "ftp://host")
      ⟨s2l "ftp", [], s2l "host", [], []⟩ (by decide) (by decide) (by decide),
   claimC7_parse_error_kinds.2.2.1 (s2l "http://example.com:badport")
      (s2l "parse \"http://example.com:badport\": invalid port \":badport\" after host")
      (by decide)⟩

/-! ## Claim C1 -/

/-- Claim C1 counterexample: a connection already holding transaction id
`"T1"` whose `BEGIN;` wire call comes back as a `begin`-kind response with
id `"T2"` ends with `txId = "T2"` and a `nil` error — `BeginTx` replaced a
non-empty stored transaction id without reporting an error, because the code
never consults the current `txId` before `setTxId(resp.TxId)`. -/
theorem claimC1_counterexample :
    (beginTx ⟨s2l "T1"⟩
      (.response ⟨.begin, [], [], [], 0, 0, s2l "T2", []⟩)).result = .ok () ∧
    (beginTx ⟨s2l "T1"⟩
      (.response ⟨.begin, [], [], [], 0, 0, s2l "T2", []⟩)).conn.txId = s2l "T2" ∧
    s2l "T1" ≠ ([] : Str) ∧ s2l "T2" ≠ s2l "T1" := by
  decide

/-- Claim C1 as amended: `BeginTx` never consults the stored transaction id,
so the overwrite can only happen on a `begin`-kind response (which the
server, trusted to reject a nested `BEGIN`, does not send to an
in-transaction connection); on every other outcome — transport error,
`error`-kind response, or any unexpected response kind — `BeginTx` reports
an error and leaves the stored transaction id unchanged. -/
theorem claimC1_begin_preserves_txId_unless_begin_response (c : Conn)
    (w : WireResult) (h : isBeginResponse w = false) :
    exceptIsOk (beginTx c w).result = false ∧ (beginTx c w).conn.txId = c.txId := by
  cases w with
  | transportError m => exact ⟨rfl, rfl⟩
  | response r =>
    have hb : ¬ r.rtype = QueryResponseType.begin := by
      simpa [isBeginResponse] using h
    by_cases he : r.rtype = QueryResponseType.error
    · simp [beginTx, he, exceptIsOk]
    · simp [beginTx, he, hb, exceptIsOk]

/-- Witness for the amended C1 at a concrete input: an in-transaction
connection whose `BEGIN;` call fails on the wire keeps its stored id. -/
theorem claimC1_begin_preserves_txId_witness :
    exceptIsOk (beginTx ⟨s2l "T1"⟩ (.transportError (s2l "boom"))).result = false ∧
    (beginTx ⟨s2l "T1"⟩ (.transportError (s2l "boom"))).conn.txId = s2l "T1" :=
  claimC1_begin_preserves_txId_unless_begin_response ⟨s2l "T1"⟩
    (.transportError (s2l "boom")) (by decide)

/-! ## Claim C2 -/

/-- Claim C2: for every connection and every outcome of the wire call
(success, transport error, `error`-kind response, or unexpected response
kind), `CommitTx` and `RollbackTx` leave the stored transaction id empty;
and when the stored id is already empty they return success without issuing
any wire request. -/
theorem claimC2_commit_rollback_always_clear (c : Conn) (w : WireResult) :
    (commitTx c w).conn.txId = [] ∧ (rollbackTx c w).conn.txId = [] ∧
    (c.txId = [] →
      commitTx c w = ⟨.ok (), ⟨[]⟩, []⟩ ∧ rollbackTx c w = ⟨.ok (), ⟨[]⟩, []⟩) := by
  refine ⟨commitTx_clears_txId c w, rollbackTx_clears_txId c w, ?_⟩
  intro h
  constructor
  · unfold commitTx
    rw [if_pos h]
  · unfold rollbackTx
    rw [if_pos h]

/-- Witness for C2 at a concrete input: an idle connection facing a failing
wire returns success from both operations without sending anything. -/
theorem claimC2_commit_rollback_always_clear_witness :
    commitTx ⟨[]⟩ (.transportError (s2l "down")) = ⟨.ok (), ⟨[]⟩, []⟩ ∧
    rollbackTx ⟨[]⟩ (.transportError (s2l "down")) = ⟨.ok (), ⟨[]⟩, []⟩ :=
  (claimC2_commit_rollback_always_clear ⟨[]⟩ (.transportError (s2l "down"))).2.2 rfl

/-! ## Claim C3 -/

/-- Claim C3 evaluated at the failing input: `ExecContext` receiving a
`read`-kind response (e.g. the statement text was a SELECT) returns a
successful `ExecResult{0,0}` instead of the unexpected-response error the
claim requires — the `resp.Type != QueryResponseWrite` guard present in
`QueryContext` (and in the earlier `Exec` revision) is missing.  The second
conjunct shows the symmetric `QueryContext` guard firing on a `write`-kind
response, which the same response kind mismatch on the read path does
reject. -/
theorem claimC3_exec_missing_write_check :
    (execContext ⟨⟨[]⟩, s2l "DELETE FROM t"⟩ []
      (.response ⟨.read, [s2l "id"], [s2l "integer"], [[SqlValue.intV 1]], 0, 0, [], []⟩)).1
      = .ok ⟨0, 0⟩ ∧
    (queryContext ⟨⟨[]⟩, s2l "SELECT 1"⟩ []
      (.response ⟨.write, [], [], [], 5, 1, [], []⟩)).1
      = .error (s2l "unexpected response type: write") := by
  decide

/-! ## Claim C4 -/

/-- Claim C4 counterexample: with an active transaction and a transport
failure during the best-effort rollback, `Close` returns the wrapped error
`failed closing connection: ...` instead of success — the rollback failure
is raised to the caller, not logged/ignored. -/
theorem claimC4_close_counterexample :
    (closeConn ⟨s2l "T1"⟩ (.transportError (s2l "boom"))).result
      = .error (s2l "failed closing connection: failed to rollback transaction: boom") ∧
    exceptIsOk (closeConn ⟨s2l "T1"⟩ (.transportError (s2l "boom"))).result = false := by
  decide

/-- Claim C4 as amended: `Close` propagates a failed best-effort rollback,
wrapped as `failed closing connection: %w`; it returns success exactly when
the underlying `RollbackTx` succeeds; in every case the local transaction id
is cleared. -/
theorem claimC4_close_propagates_rollback_error (c : Conn) (w : WireResult) :
    ((rollbackTx c w).result = .ok () → (closeConn c w).result = .ok ()) ∧
    (∀ e, (rollbackTx c w).result = .error e →
      (closeConn c w).result = .error (s2l "failed closing connection: " ++ e)) ∧
    (closeConn c w).conn.txId = [] := by
  refine ⟨?_, ?_, ?_⟩
  · intro h
    simp [closeConn, h]
  · intro e h
    simp [closeConn, h]
  · have hc : (closeConn c w).conn = (rollbackTx c w).conn := by
      cases hr : (rollbackTx c w).result with
      | error e => simp [closeConn, hr]
      | ok u => simp [closeConn, hr]
    rw [hc]
    exact rollbackTx_clears_txId c w

/-- Witness for the amended C4 at concrete inputs: a clean rollback makes
`Close` succeed, and a transport failure during rollback surfaces as the
wrapped close error. -/
theorem claimC4_close_propagates_rollback_error_witness :
    (closeConn ⟨s2l "T1"⟩ (.response ⟨.rollback, [], [], [], 0, 0, [], []⟩)).result
      = .ok () ∧
    (closeConn ⟨s2l "T1"⟩ (.transportError (s2l "net"))).result
      = .error (s2l "failed closing connection: " ++ (s2l "failed to rollback transaction: " ++ s2l "net")) :=
  ⟨(claimC4_close_propagates_rollback_error ⟨s2l "T1"⟩
      (.response ⟨.rollback, [], [], [], 0, 0, [], []⟩)).1 (by decide),
   (claimC4_close_propagates_rollback_error ⟨s2l "T1"⟩
      (.transportError (s2l "net"))).2.1
      (s2l "failed to rollback transaction: " ++ s2l "net") (by decide)⟩

/-! ## Claim C5 -/

/-- Claim C5 counterexample: a successful `SendQueries` call is NOT
guaranteed to return one response per query — submitting 3 queries while the
(misbehaving) server's envelope decodes to only 2 results yields a success
carrying exactly those 2 responses, because the code checks only for an
empty results list, never the count against `len(queries)`. -/
theorem claimC5_counterexample :
    sendQueries
      [⟨s2l "a", [], []⟩, ⟨s2l "b", [], []⟩, ⟨s2l "c", [], []⟩]
      (.response 200 (s2l "200 OK")
        (.ok [⟨.write, [], [], [], 1, 1, [], []⟩, ⟨.error, [], [], [], 0, 0, [], s2l "e"⟩]))
      = .ok [⟨.write, [], [], [], 1, 1, [], []⟩, ⟨.error, [], [], [], 0, 0, [], s2l "e"⟩] ∧
    ([⟨.write, [], [], [], 1, 1, [], []⟩,
      (⟨.error, [], [], [], 0, 0, [], s2l "e"⟩ : QueryResponse)].length = 2 ∧
     [⟨s2l "a", [], []⟩, ⟨s2l "b", [], []⟩, (⟨s2l "c", [], []⟩ : Query)].length = 3) := by
  decide

/-- Claim C5 as amended: on a 200 response whose envelope decodes to `rs`,
`SendQueries` returns `rs` verbatim — the server's results, unmodified and
in the order received — when `rs` is non-empty, and fails with
`empty response` when it is empty; the client itself never reorders,
filters, or counts the entries, so "n queries yield n responses in order"
holds exactly when the server answers one result per query (as it does in
the witness: 3 queries, 3 responses, same order). -/
theorem claimC5_sendQueries_passthrough (qs : List Query) (st : Str)
    (rs : List QueryResponse) :
    (rs ≠ [] → sendQueries qs (.response 200 st (.ok rs)) = .ok rs) ∧
    (rs = [] → sendQueries qs (.response 200 st (.ok rs))
      = .error (s2l "empty response")) := by
  constructor
  · intro h
    simp [sendQueries, h]
  · intro h
    subst h
    simp [sendQueries]

/-- Witness for the amended C5: a batch of 3 queries answered by an envelope
of 3 results (of differing kinds) yields exactly those 3 responses in the
same order. -/
theorem claimC5_sendQueries_passthrough_witness :
    sendQueries [⟨s2l "a", [], []⟩, ⟨s2l "b", [], []⟩, ⟨s2l "c", [], []⟩]
      (.response 200 (s2l "200 OK")
        (.ok [⟨.write, [], [], [], 1, 1, [], []⟩,
              ⟨.read, [s2l "x"], [s2l "text"], [[SqlValue.textV (s2l "v")]], 0, 0, [], []⟩,
              ⟨.error, [], [], [], 0, 0, [], s2l "e"⟩]))
      = .ok [⟨.write, [], [], [], 1, 1, [], []⟩,
             ⟨.read, [s2l "x"], [s2l "text"], [[SqlValue.textV (s2l "v")]], 0, 0, [], []⟩,
             ⟨.error, [], [], [], 0, 0, [], s2l "e"⟩] :=
  (claimC5_sendQueries_passthrough
    [⟨s2l "a", [], []⟩, ⟨s2l "b", [], []⟩, ⟨s2l "c", [], []⟩] (s2l "200 OK")
    [⟨.write, [], [], [], 1, 1, [], []⟩,
     ⟨.read, [s2l "x"], [s2l "text"], [[SqlValue.textV (s2l "v")]], 0, 0, [], []⟩,
     ⟨.error, [], [], [], 0, 0, [], s2l "e"⟩]).1 (by decide)

/-! ## Claim C8 -/

/-- Claim C8: `SendPing` succeeds iff the HTTP response has status 200 (the
success status of this protocol) and a readable body equal to the
case-insensitive literal `"ok"`; the response headers are never consulted,
so no server-identity header is required for success; and on a body mismatch
the reported body is truncated to its first 100 characters plus `"..."`
whenever it is longer than 100. -/
theorem claimC8_ping_ok_iff (st : Nat) (stx : Str) (hs : List (Str × Str))
    (body : Str) (b : Except Str Str) :
    (sendPing (.response st stx hs (.ok body)) = .ok () ↔
      (st = 200 ∧ lowerStr body = s2l "ok")) ∧
    (∀ hs2, sendPing (.response st stx hs b) = sendPing (.response st stx hs2 b)) ∧
    (st = 200 → lowerStr body ≠ s2l "ok" → 100 < body.length →
      sendPing (.response st stx hs (.ok body))
        = .error (s2l "health check expected to return \"OK\" but got \""
            ++ (body.take 100 ++ s2l "...") ++ s2l "\"")) := by
  refine ⟨?_, ?_, ?_⟩
  · by_cases hst : st = 200
    · by_cases hb : lowerStr body = s2l "ok"
      · simp [sendPing, hst, hb]
      · simp [sendPing, hst, hb]
    · simp [sendPing, hst]
  · intro hs2
    rfl
  · intro h1 h2 h3
    simp [sendPing, h1, h2, h3]

/-- Witness for C8 at concrete inputs: status 200 with body `"OK"` succeeds
regardless of (absent) headers, and a 101-character wrong body is reported
truncated to its first 100 characters. -/
theorem claimC8_ping_ok_iff_witness :
    sendPing (.response 200 (s2l "200 OK") [] (.ok (s2l "OK"))) = .ok () ∧
    sendPing (.response 200 (s2l "200 OK") [] (.ok (List.replicate 101 'a')))
      = .error (s2l "health check expected to return \"OK\" but got \""
          ++ ((List.replicate 101 'a').take 100 ++ s2l "...") ++ s2l "\"") :=
  ⟨(claimC8_ping_ok_iff 200 (s2l "200 OK") [] (s2l "OK")
      (.ok (s2l "OK"))).1.mpr ⟨rfl, by decide⟩,
   (claimC8_ping_ok_iff 200 (s2l "200 OK") [] (List.replicate 101 'a')
      (.ok (List.replicate 101 'a'))).2.2 rfl (by decide) (by decide)⟩

/-! ## Claim C9 -/

/-- Claim C9 counterexample: the display string CAN contain the token's
value — for the descriptor `{http, h, 1, authToken = "http"}` the (non-empty)
token value `"http"` occurs verbatim inside the display string
`http://h:1?authToken=****`, because the scheme spells it.  The literal
"never contains the token's value" reading of the claim is therefore false;
the redaction property that does hold is token-noninterference. -/
theorem claimC9_counterexample :
    List.IsInfix (s2l "http")
      (connStrString ⟨s2l "http", s2l "h", s2l "1", s2l "http"⟩).1 ∧
    (⟨s2l "http", s2l "h", s2l "1", s2l "http"⟩ : ConnStr).AuthToken = s2l "http" ∧
    s2l "http" ≠ ([] : Str) := by
  decide

/-- Claim C9 as amended: with a non-empty token the display string is
exactly `scheme://host:port?authToken=****` (over the defaulted fields) and
with an empty token exactly `scheme://host:port`; the display string is
independent of the value of a non-empty token (any two descriptors differing
only in their non-empty token values display identically), so the token is
never revealed — though it can coincide with a substring the display already
contains, such as the scheme or `****`. -/
theorem claimC9_display_token_noninterference (c : ConnStr) :
    (c.AuthToken ≠ [] →
      (connStrString c).1 = (baseUrlStr c).1 ++ s2l "?authToken=****") ∧
    (c.AuthToken = [] → (connStrString c).1 = (baseUrlStr c).1) ∧
    (∀ t1 t2 : Str, t1 ≠ [] → t2 ≠ [] →
      (connStrString { c with AuthToken := t1 }).1
        = (connStrString { c with AuthToken := t2 }).1) := by
  refine ⟨?_, ?_, ?_⟩
  · intro h
    have hd : (setDefaultsIfEmpty c).AuthToken = c.AuthToken := rfl
    simp [connStrString, baseUrlStr, hd, h]
  · intro h
    have hd : (setDefaultsIfEmpty c).AuthToken = c.AuthToken := rfl
    simp [connStrString, baseUrlStr, hd, h]
  · intro t1 t2 h1 h2
    simp [connStrString, setDefaultsIfEmpty, h1, h2]

/-- Witness for the amended C9: the spec's scenario descriptor with token
`"secret"` displays as the redacted base, and changing the token to another
non-empty value leaves the display identical. -/
theorem claimC9_display_token_noninterference_witness :
    (connStrString ⟨s2l "https", s2l "example.com", s2l "8080", s2l "secret"⟩).1
      = (baseUrlStr ⟨s2l "https", s2l "example.com", s2l "8080", s2l "secret"⟩).1
        ++ s2l "?authToken=****" ∧
    (connStrString ⟨s2l "https", s2l "example.com", s2l "8080", s2l "secret"⟩).1
      = (connStrString ⟨s2l "https", s2l "example.com", s2l "8080", s2l "other"⟩).1 :=
  ⟨(claimC9_display_token_noninterference
      ⟨s2l "https", s2l "example.com", s2l "8080", s2l "secret"⟩).1 (by decide),
   (claimC9_display_token_noninterference
      ⟨s2l "https", s2l "example.com", s2l "8080", s2l "x"⟩).2.2
      (s2l "secret") (s2l "other") (by decide) (by decide)⟩

/-! ## Claim C10 -/

/-- Claim C10: column type-name reporting is total at the public interface.
For every `QueryRows` and every integer index, `ColumnTypeDatabaseTypeName`
returns the upper-cased declared type when the index lies inside the
declared-types list, and returns the empty string for every negative index
and every index at or beyond the list's length (the function is total, so no
out-of-bounds access can occur). -/
theorem claimC10_column_type_name_total (r : QueryRows) :
    (∀ (n : Nat) (h : n < r.types.length),
      columnTypeDatabaseTypeName r (n : Int) = upperStr (r.types.get ⟨n, h⟩)) ∧
    (∀ i : Int, i < 0 → columnTypeDatabaseTypeName r i = []) ∧
    (∀ i : Int, (r.types.length : Int) ≤ i → columnTypeDatabaseTypeName r i = []) := by
  refine ⟨?_, ?_, ?_⟩
  · intro n h
    have h1 : ¬ ((n : Int) < 0) := by omega
    have h2 : ¬ ((r.types.length : Int) ≤ (n : Int)) := by
      have := Nat.not_le.mpr h
      exact_mod_cast this
    rw [columnTypeDatabaseTypeName, if_neg h1, if_neg h2]
    congr 1
    rw [Int.toNat_natCast]
    exact (List.getD_eq_getElem r.types [] h).trans (List.get_eq_getElem r.types ⟨n, h⟩).symm
  · intro i h
    rw [columnTypeDatabaseTypeName, if_pos h]
  · intro i h
    have h1 : ¬ i < 0 := by
      have : (0 : Int) ≤ r.types.length := by positivity
      omega
    rw [columnTypeDatabaseTypeName, if_neg h1, if_pos h]

/-- Witness for C10: the in-bounds and out-of-bounds branches evaluated on a
concrete result set with declared types `["integer", "text"]`. -/
theorem claimC10_column_type_name_total_witness :
    columnTypeDatabaseTypeName ⟨[], [s2l "integer", s2l "text"], [], 0, 0⟩ (0 : Int)
        = s2l "INTEGER" ∧
    columnTypeDatabaseTypeName ⟨[], [s2l "integer", s2l "text"], [], 0, 0⟩ (-1 : Int) = [] ∧
    columnTypeDatabaseTypeName ⟨[], [s2l "integer", s2l "text"], [], 0, 0⟩ (2 : Int) = [] := by
  refine ⟨?_, ?_, ?_⟩
  · have h := (claimC10_column_type_name_total ⟨[], [s2l "integer", s2l "text"], [], 0, 0⟩).1
      0 (by decide)
    rw [show ((0 : Nat) : Int) = (0 : Int) from rfl] at h
    rw [h]
    decide
  · exact (claimC10_column_type_name_total ⟨[], [s2l "integer", s2l "text"], [], 0, 0⟩).2.1
      (-1) (by decide)
  · have h := (claimC10_column_type_name_total ⟨[], [s2l "integer", s2l "text"], [], 0, 0⟩).2.2
      2 (by decide)
    exact h
